import Mathlib

/-!
Shallow embedding of the SDL audio output core of shadPS4
(`src/audio_core/sdl_audio.cpp`), namespace `Audio`, class `SDLAudio`.

The port table `portsOut` is a fixed-capacity vector of `Port` records; we
model it as a `List Port` whose length is the capacity.  The SDL backend
(stream open / `SDL_PutAudioStreamData` / `SDL_GetAudioStreamAvailable`)
is external to the excerpt; its behaviour enters the model as explicit
parameters: whether opening a stream succeeds (`backendOk`), whether the
backend accepts pushed bytes (`putAccepted`), and the successive values
the backend reports for its buffered-but-unplayed byte count
(`availTrace`, one entry per query of the busy-wait loop).  `Output`
additionally returns the list of backend calls it performed, so that
"no backend call is made" and "these bytes were submitted" are statable.

Machine integers: handles and volumes are `s32`, modelled as `Int`;
`samples_num`/`freq` are `u32` and channel counts and sizes are small
positive values, modelled as `Nat`.  The `bitflag` parameter of
`SetVolume` is modelled by its 32-bit pattern as a `Nat`: the C++ loop
tests the low bit and shifts right once per channel (at most 8 < 32
iterations), which on the pattern is exactly `Nat.testBit`.
-/

namespace Audio

/-- The eight recognized values of `OrbisAudioOutParamFormat`
(a closed enumeration upstream; the `default:` branch of the `switch` in
`AudioOutOpen` is `UNREACHABLE_MSG`, so the inductive has exactly these
constructors). -/
inductive OrbisAudioOutParamFormat where
  | S16_MONO
  | FLOAT_MONO
  | S16_STEREO
  | FLOAT_STEREO
  | S16_8CH
  | FLOAT_8CH
  | S16_8CH_STD
  | FLOAT_8CH_STD
deriving DecidableEq

/-- The SDL wire formats used by the excerpt (`SDL_AUDIO_S16`, `SDL_AUDIO_F32`). -/
inductive SDLAudioFormat where
  | S16
  | F32
deriving DecidableEq

/-- One slot of `portsOut`.  `stream : Bool` models whether the slot's
`SDL_AudioStream*` is non-null (the pointer's identity is never used by the
excerpt, only its null test). -/
structure Port where
  isOpen : Bool
  type : Int
  samples_num : Nat
  freq : Nat
  format : OrbisAudioOutParamFormat
  channels_num : Nat
  sample_size : Nat
  volume : List Int
  stream : Bool
deriving DecidableEq

/-- A fresh free slot: `isOpen = false`, the volume array has 8 zero
entries (the `volume` member is a fixed `s32[8]` array). -/
def defaultPort : Port :=
  { isOpen := false
    type := 0
    samples_num := 0
    freq := 0
    format := .S16_MONO
    channels_num := 0
    sample_size := 0
    volume := List.replicate 8 0
    stream := false }

instance : Inhabited Port := ⟨defaultPort⟩

/-- Source line 17: `constexpr int AUDIO_STREAM_BUFFER_THRESHOLD = 65536`. -/
def AUDIO_STREAM_BUFFER_THRESHOLD : Int := 65536

/-- Modelled from the spec: the unity-gain volume constant
`SCE_AUDIO_OUT_VOLUME_0DB` (its defining header is not part of the excerpt;
only the fact that it is one fixed constant matters here). -/
def SCE_AUDIO_OUT_VOLUME_0DB : Int := 32768

/-- Modelled from the spec: the success return code (`ORBIS_OK`, the literal
`0` returned by the null-data short-circuit). -/
def ORBIS_OK : Int := 0

/-- Modelled from the spec: the invalid-port error code, a sentinel distinct
from `ORBIS_OK` (its defining header is not part of the excerpt). -/
def ORBIS_AUDIO_OUT_ERROR_INVALID_PORT : Int := -2144993278

/-- Source lines 19-21: `handle >= 1 && handle <= portsOut.size()`. -/
def isValidHandle (portsOut : List Port) (handle : Int) : Bool :=
  decide (1 ≤ handle) && decide (handle ≤ (portsOut.length : Int))

/-- The `switch (format)` of `AudioOutOpen` (source lines 38-81): yields
`(sampleFormat, channels_num, sample_size)` for each recognized format. -/
def resolveFormat : OrbisAudioOutParamFormat → SDLAudioFormat × Nat × Nat
  | .S16_MONO => (.S16, 1, 2)
  | .FLOAT_MONO => (.F32, 1, 4)
  | .S16_STEREO => (.S16, 2, 2)
  | .FLOAT_STEREO => (.F32, 2, 4)
  | .S16_8CH => (.S16, 8, 2)
  | .FLOAT_8CH => (.F32, 8, 4)
  | .S16_8CH_STD => (.S16, 8, 2)
  | .FLOAT_8CH_STD => (.F32, 8, 4)

/-- The volume-defaulting loop of `AudioOutOpen` (source lines 83-85):
`for (i = 0; i < channels_num; i++) volume[i] = SCE_AUDIO_OUT_VOLUME_0DB`.
Stated with the updates accumulated from the top index down; the writes hit
pairwise distinct indices, so the result equals the ascending C++ loop. -/
def setVolumesDefault : Nat → List Int → List Int
  | 0, vol => vol
  | n + 1, vol => (setVolumesDefault n vol).set n SCE_AUDIO_OUT_VOLUME_0DB

/-- The body of `AudioOutOpen`'s scan once a free slot is found (source
lines 31-98): populate the slot's fields, resolve the format, default the
volumes, and record whether the backend stream opened (`port.stream`). -/
def openSlot (type : Int) (samples_num freq : Nat)
    (format : OrbisAudioOutParamFormat) (backendOk : Bool) (p : Port) : Port :=
  { isOpen := true
    type := type
    samples_num := samples_num
    freq := freq
    format := format
    channels_num := (resolveFormat format).2.1
    sample_size := (resolveFormat format).2.2
    volume := setVolumesDefault (resolveFormat format).2.1 p.volume
    stream := backendOk }

/-- The slot scan of `AudioOutOpen` (source lines 28-101): walk the table in
index order; at the first slot with `!isOpen`, run `openSlot`.  Returns the
0-based index of the claimed slot on success, `none` when the scan failed
(either no free slot, or `SDL_OpenAudioDeviceStream` returned null — in the
latter case the modified table still carries the slot with `isOpen = true`,
exactly as the C++ `return -1` at line 95 leaves it: there is no rollback). -/
def openScan (type : Int) (samples_num freq : Nat)
    (format : OrbisAudioOutParamFormat) (backendOk : Bool) :
    List Port → Option Nat × List Port
  | [] => (none, [])
  | p :: rest =>
    if p.isOpen then
      let r := openScan type samples_num freq format backendOk rest
      (r.1.map (fun i => i + 1), p :: r.2)
    else
      let p1 := openSlot type samples_num freq format backendOk p
      if backendOk then (some 0, p1 :: rest) else (none, p1 :: rest)

/-- Source lines 23-104, `SDLAudio::AudioOutOpen`: returns the 1-based handle
`id + 1` on success and `-1` on failure (exhaustion or backend open
failure), together with the table after the call. -/
def AudioOutOpen (portsOut : List Port) (type : Int) (samples_num freq : Nat)
    (format : OrbisAudioOutParamFormat) (backendOk : Bool) : Int × List Port :=
  let r := openScan type samples_num freq format backendOk portsOut
  (match r.1 with
   | none => -1
   | some id => (id : Int) + 1, r.2)

/-- One observable backend interaction made by `AudioOutOutput`. -/
inductive BackendEvent where
  | putData (size : Nat)
  | queryAvailable (reported : Int)
deriving DecidableEq

/-- The busy-wait loop of `AudioOutOutput` (source lines 126-128):
`while (SDL_GetAudioStreamAvailable(stream) > AUDIO_STREAM_BUFFER_THRESHOLD) SDL_Delay(0)`.
`availTrace` lists the successive values the backend reports; the loop exits
at the first reported value at or below the threshold, and that value is
returned as the exit observation.  `none` means no such value occurs in the
trace: the C++ loop would not have returned yet.  The second component lists
the queries performed, in order, the exit observation last. -/
def pollLoop : List Int → Option Int × List BackendEvent
  | [] => (none, [])
  | a :: rest =>
    if a > AUDIO_STREAM_BUFFER_THRESHOLD then
      let r := pollLoop rest
      (r.1, .queryAvailable a :: r.2)
    else (some a, [.queryAvailable a])

/-- Source lines 106-131, `SDLAudio::AudioOutOutput`.  `ptrIsNull` models
`ptr == nullptr`; `putAccepted` the `SDL_bool` result of
`SDL_PutAudioStreamData`.  Returns the return code (`none` when the
busy-wait loop never exits within `availTrace`), the backend calls made, and
the port table, which this function never mutates. -/
def AudioOutOutput (portsOut : List Port) (handle : Int) (ptrIsNull : Bool)
    (putAccepted : Bool) (availTrace : List Int) :
    Option Int × List BackendEvent × List Port :=
  if !(isValidHandle portsOut handle) then
    (some ORBIS_AUDIO_OUT_ERROR_INVALID_PORT, [], portsOut)
  else if ptrIsNull then
    (some 0, [], portsOut)
  else
    let port := portsOut.getD (handle - 1).toNat defaultPort
    if !port.isOpen then
      (some ORBIS_AUDIO_OUT_ERROR_INVALID_PORT, [], portsOut)
    else
      let data_size := port.samples_num * port.sample_size * port.channels_num
      let r := pollLoop availTrace
      (r.1.map (fun _ => if putAccepted then ORBIS_OK else -1),
       .putData data_size :: r.2, portsOut)

/-- The channel-index remap of `AudioOutSetVolume` (source lines 148-157):
`src_index = i`, except that for the two standard-order 8-channel formats
indices 4,5,6,7 are remapped to 6,7,4,5. -/
def srcIndex (format : OrbisAudioOutParamFormat) (i : Nat) : Nat :=
  if format = .FLOAT_8CH_STD ∨ format = .S16_8CH_STD then
    match i with
    | 4 => 6
    | 5 => 7
    | 6 => 4
    | 7 => 5
    | _ => i
  else i

/-- The update loop of `AudioOutSetVolume` (source lines 146-160): for each
`i < channels_num` whose bit is set in `bitflag`, write
`volumeArg[srcIndex format i]` into slot `i` of the port's volume array. -/
def setVolumeChannels (format : OrbisAudioOutParamFormat) (channels_num : Nat)
    (bitflag : Nat) (volumeArg : List Int) (vol : List Int) : List Int :=
  (List.range channels_num).foldl
    (fun v i =>
      if bitflag.testBit i then v.set i (volumeArg.getD (srcIndex format i) 0)
      else v)
    vol

/-- Source lines 133-163, `SDLAudio::AudioOutSetVolume`: handle range check,
then `isOpen` recheck, then the per-channel volume update. -/
def AudioOutSetVolume (portsOut : List Port) (handle : Int) (bitflag : Nat)
    (volumeArg : List Int) : Bool × List Port :=
  if !(isValidHandle portsOut handle) then (false, portsOut)
  else
    let idx := (handle - 1).toNat
    let port := portsOut.getD idx defaultPort
    if !port.isOpen then (false, portsOut)
    else
      (true, portsOut.set idx
        { port with
          volume := setVolumeChannels port.format port.channels_num bitflag
            volumeArg port.volume })

/-- Source lines 165-176, `SDLAudio::AudioOutGetStatus`: handle range check
only (there is no `isOpen` recheck in this function); on passing the range
check it writes `port.type` and `port.channels_num` into the caller's
outputs (the `some` payload) and returns true; on failure the outputs are
untouched (`none`). -/
def AudioOutGetStatus (portsOut : List Port) (handle : Int) :
    Bool × Option (Int × Nat) :=
  if !(isValidHandle portsOut handle) then (false, none)
  else
    let port := portsOut.getD (handle - 1).toNat defaultPort
    (true, some (port.type, port.channels_num))

/-- Iterated `AudioOutOpen` with a succeeding backend: performs `n` opens in
sequence and collects the returned handles in call order. -/
def openN (type : Int) (samples_num freq : Nat)
    (format : OrbisAudioOutParamFormat) :
    Nat → List Port → List Int × List Port
  | 0, ports => ([], ports)
  | k + 1, ports =>
    let r := AudioOutOpen ports type samples_num freq format true
    let rest := openN type samples_num freq format k r.2
    (r.1 :: rest.1, rest.2)

/-- A concrete open stereo port, used to instantiate theorems with
hypotheses on concrete inputs. -/
def samplePort : Port :=
  { isOpen := true
    type := 3
    samples_num := 256
    freq := 48000
    format := .FLOAT_STEREO
    channels_num := 2
    sample_size := 4
    volume := [32768, 32768, 0, 0, 0, 0, 0, 0]
    stream := true }

/-- A concrete open 8-channel port in the standard-order S16 format. -/
def samplePortStd : Port :=
  { isOpen := true
    type := 0
    samples_num := 512
    freq := 48000
    format := .S16_8CH_STD
    channels_num := 8
    sample_size := 2
    volume := List.replicate 8 32768
    stream := true }

/-- A concrete open 8-channel port in the non-standard S16 format. -/
def samplePort8 : Port :=
  { isOpen := true
    type := 0
    samples_num := 512
    freq := 48000
    format := .S16_8CH
    channels_num := 8
    sample_size := 2
    volume := List.replicate 8 32768
    stream := true }

/-! Helper lemmas shared by several developments. -/

theorem isValidHandle_iff (ports : List Port) (h : Int) :
    isValidHandle ports h = true ↔ 1 ≤ h ∧ h ≤ (ports.length : Int) := by
  simp [isValidHandle]

theorem isValidHandle_false (ports : List Port) (h : Int) :
    isValidHandle ports h = false ↔ ¬(1 ≤ h ∧ h ≤ (ports.length : Int)) := by
  rw [← isValidHandle_iff]
  cases isValidHandle ports h <;> simp

theorem handle_index_lt {ports : List Port} {h : Int}
    (h1 : 1 ≤ h) (h2 : h ≤ (ports.length : Int)) :
    (h - 1).toNat < ports.length := by
  omega

/-- C4: the format switch of `AudioOutOpen` maps the eight recognized
values exactly as the specification's resolution table says: mono/stereo/8ch
yield 1/2/8 channels, S16/FLOAT yield 2/4-byte samples, and in particular
mono-int16 gives (1,2), stereo-float gives (2,4), 8ch-int16-standard gives
(8,2) and 8ch-float-standard gives (8,4).  The function is total on the
closed format enumeration, so the fatal `default:` branch of the C++ switch
is unreachable by construction. -/
theorem format_resolution_table :
    resolveFormat .S16_MONO = (.S16, 1, 2) ∧
    resolveFormat .FLOAT_MONO = (.F32, 1, 4) ∧
    resolveFormat .S16_STEREO = (.S16, 2, 2) ∧
    resolveFormat .FLOAT_STEREO = (.F32, 2, 4) ∧
    resolveFormat .S16_8CH = (.S16, 8, 2) ∧
    resolveFormat .FLOAT_8CH = (.F32, 8, 4) ∧
    resolveFormat .S16_8CH_STD = (.S16, 8, 2) ∧
    resolveFormat .FLOAT_8CH_STD = (.F32, 8, 4) := by
  exact ⟨rfl, rfl, rfl, rfl, rfl, rfl, rfl, rfl⟩

/-- C2: evaluation of the backend-open-failure path.  On a one-slot table
whose slot is free, `AudioOutOpen` with a failing backend returns the
sentinel `-1`, but the tentatively-reserved slot is NOT rolled back: after
the call its `isOpen` flag is still `true` (with a null stream), so the
capacity is leaked, contradicting the claimed rollback. -/
theorem open_backend_failure_leaks_slot :
    (AudioOutOpen [defaultPort] 0 256 48000 .S16_MONO false).1 = -1 ∧
    ((AudioOutOpen [defaultPort] 0 256 48000 .S16_MONO false).2.getD 0
        defaultPort).isOpen = true ∧
    ((AudioOutOpen [defaultPort] 0 256 48000 .S16_MONO false).2.getD 0
        defaultPort).stream = false := by
  exact ⟨rfl, rfl, rfl⟩

/-- C1 counterexample: on a one-slot table whose slot is NOT open,
`AudioOutGetStatus` with the in-range handle 1 returns `true` and writes
both outputs (the stale `type = 0`, `channels_num = 0` of the free slot),
whereas the claim says it must return `false` and leave the outputs
untouched whenever the slot is not open. -/
theorem getStatus_no_open_check_counterexample :
    ([defaultPort].getD 0 defaultPort).isOpen = false ∧
    (AudioOutGetStatus [defaultPort] 1).1 = true ∧
    (AudioOutGetStatus [defaultPort] 1).2 = some (0, 0) := by
  exact ⟨rfl, rfl, rfl⟩

/-- C8: on a valid handle to an open port, `AudioOutOutput` with a null data
pointer returns success (`0`) immediately: no backend call is made (the
event list is empty, so no bytes are pushed and the buffered count is never
queried) and the port table is returned unchanged. -/
theorem output_null_noop (ports : List Port) (h : Int)
    (putAccepted : Bool) (availTrace : List Int)
    (h1 : 1 ≤ h) (h2 : h ≤ (ports.length : Int))
    (_hopen : (ports.getD (h - 1).toNat defaultPort).isOpen = true) :
    AudioOutOutput ports h true putAccepted availTrace = (some 0, [], ports) := by
  simp [AudioOutOutput, isValidHandle, h1, h2]

theorem output_null_noop_witness :
    AudioOutOutput [samplePort] 1 true false [] = (some 0, [], [samplePort]) :=
  output_null_noop [samplePort] 1 false [] (by decide) (by decide) (by decide)

/-- C10: the null-data short-circuit of `AudioOutOutput` comes before the
`isOpen` recheck, so for EVERY handle in range 1..capacity — open slot or
not — a null data pointer yields success (`0`), no backend events, and an
unchanged table.  Only the numeric range of the handle is checked first. -/
theorem output_null_ignores_open (ports : List Port) (h : Int)
    (putAccepted : Bool) (availTrace : List Int)
    (h1 : 1 ≤ h) (h2 : h ≤ (ports.length : Int)) :
    AudioOutOutput ports h true putAccepted availTrace = (some 0, [], ports) := by
  simp [AudioOutOutput, isValidHandle, h1, h2]

theorem output_null_ignores_open_witness :
    defaultPort.isOpen = false ∧
    AudioOutOutput [defaultPort] 1 true true [] = (some 0, [], [defaultPort]) :=
  ⟨by decide, output_null_ignores_open [defaultPort] 1 true [] (by decide) (by decide)⟩

theorem pollLoop_exit_le :
    ∀ (tr : List Int) (v : Int), (pollLoop tr).1 = some v →
      v ≤ AUDIO_STREAM_BUFFER_THRESHOLD := by
  intro tr
  induction tr with
  | nil => intro v hv; simp [pollLoop] at hv
  | cons a rest ih =>
    intro v hv
    by_cases hgt : a > AUDIO_STREAM_BUFFER_THRESHOLD
    · simp [pollLoop, hgt] at hv
      exact ih v hv
    · simp [pollLoop, hgt] at hv
      omega

/-- C6: backpressure.  Whenever `AudioOutOutput` on an open port with
non-null data returns (its code is `some c`), the busy-wait loop exited at
an observation of the backend's buffered-but-unplayed byte count that is at
or below `AUDIO_STREAM_BUFFER_THRESHOLD = 65536`; while every reported
count exceeds the threshold the loop (and hence the call) does not return. -/
theorem output_backpressure_bound (ports : List Port) (h : Int)
    (putAccepted : Bool) (availTrace : List Int) (c : Int)
    (h1 : 1 ≤ h) (h2 : h ≤ (ports.length : Int))
    (hopen : (ports.getD (h - 1).toNat defaultPort).isOpen = true)
    (hret : (AudioOutOutput ports h false putAccepted availTrace).1 = some c) :
    ∃ v, (pollLoop availTrace).1 = some v ∧ v ≤ AUDIO_STREAM_BUFFER_THRESHOLD := by
  have hopen2 : (ports.getD (h - 1).toNat defaultPort).isOpen = true := hopen
  simp at hopen2
  simp [AudioOutOutput, isValidHandle, h1, h2, hopen2] at hret
  cases hp : (pollLoop availTrace).1 with
  | none => rw [hp] at hret; simp at hret
  | some v => exact ⟨v, rfl, pollLoop_exit_le availTrace v hp⟩

theorem output_backpressure_bound_witness :
    ∃ v, (pollLoop [0]).1 = some v ∧ v ≤ AUDIO_STREAM_BUFFER_THRESHOLD :=
  output_backpressure_bound [samplePort] 1 true [0] 0
    (by decide) (by decide) (by decide) (by decide)

theorem pollLoop_events_are_queries :
    ∀ (tr : List Int), ∀ e ∈ (pollLoop tr).2, ∃ w, e = BackendEvent.queryAvailable w := by
  intro tr
  induction tr with
  | nil => intro e he; simp [pollLoop] at he
  | cons a rest ih =>
    intro e he
    by_cases hgt : a > AUDIO_STREAM_BUFFER_THRESHOLD
    · simp [pollLoop, hgt] at he
      rcases he with he | he
      · exact ⟨a, he⟩
      · exact ih e he
    · simp [pollLoop, hgt] at he
      exact ⟨a, he⟩

/-- C7: on an open port with non-null data (and a draining backend, so the
call returns), `AudioOutOutput` submits to the backend exactly one data
push whose byte count is `samples_num * sample_size * channels_num` of the
port (every other backend event is a buffered-count query), and the return
code is success (`ORBIS_OK`) precisely when the backend accepted the bytes,
and the single generic failure code `-1` precisely when it did not. -/
theorem output_datasize_and_result (ports : List Port) (h : Int)
    (putAccepted : Bool) (availTrace : List Int) (v : Int)
    (h1 : 1 ≤ h) (h2 : h ≤ (ports.length : Int))
    (hopen : (ports.getD (h - 1).toNat defaultPort).isOpen = true)
    (hterm : (pollLoop availTrace).1 = some v) :
    ((AudioOutOutput ports h false putAccepted availTrace).2.1 =
      BackendEvent.putData
          ((ports.getD (h - 1).toNat defaultPort).samples_num *
            (ports.getD (h - 1).toNat defaultPort).sample_size *
            (ports.getD (h - 1).toNat defaultPort).channels_num)
        :: (pollLoop availTrace).2) ∧
    (∀ e ∈ (pollLoop availTrace).2, ∃ w, e = BackendEvent.queryAvailable w) ∧
    ((AudioOutOutput ports h false putAccepted availTrace).1 = some ORBIS_OK ↔
      putAccepted = true) ∧
    ((AudioOutOutput ports h false putAccepted availTrace).1 = some (-1) ↔
      putAccepted = false) := by
  have hopen2 : (ports.getD (h - 1).toNat defaultPort).isOpen = true := hopen
  simp at hopen2
  refine ⟨?_, pollLoop_events_are_queries availTrace, ?_, ?_⟩
  · simp [AudioOutOutput, isValidHandle, h1, h2, hopen2]
  · simp [AudioOutOutput, isValidHandle, h1, h2, hopen2, hterm]
    cases putAccepted <;> simp [ORBIS_OK]
  · simp [AudioOutOutput, isValidHandle, h1, h2, hopen2, hterm]
    cases putAccepted <;> simp [ORBIS_OK]

theorem output_datasize_and_result_witness :
    ((AudioOutOutput [samplePort] 1 false true [0]).2.1 =
      BackendEvent.putData
          (([samplePort].getD 0 defaultPort).samples_num *
            ([samplePort].getD 0 defaultPort).sample_size *
            ([samplePort].getD 0 defaultPort).channels_num)
        :: (pollLoop [0]).2) ∧
    (∀ e ∈ (pollLoop [0]).2, ∃ w, e = BackendEvent.queryAvailable w) ∧
    ((AudioOutOutput [samplePort] 1 false true [0]).1 = some ORBIS_OK ↔
      true = true) ∧
    ((AudioOutOutput [samplePort] 1 false true [0]).1 = some (-1) ↔
      true = false) :=
  output_datasize_and_result [samplePort] 1 true [0] 0
    (by decide) (by decide) (by decide) (by decide)

theorem getD_set_self {α : Type} (d a : α) :
    ∀ (l : List α) (i : Nat), i < l.length → (l.set i a).getD i d = a := by
  intro l
  induction l with
  | nil => intro i hi; simp at hi
  | cons x xs ih =>
    intro i hi
    cases i with
    | zero => rfl
    | succ j =>
      have hj : j < xs.length := by simpa using hi
      simpa using ih j hj

theorem getD_set_ne {α : Type} (d a : α) :
    ∀ (l : List α) (i j : Nat), i ≠ j → (l.set i a).getD j d = l.getD j d := by
  intro l
  induction l with
  | nil => intro i j hij; rfl
  | cons x xs ih =>
    intro i j hij
    cases i with
    | zero =>
      cases j with
      | zero => exact absurd rfl hij
      | succ j2 => rfl
    | succ i2 =>
      cases j with
      | zero => rfl
      | succ j2 => simpa using ih i2 j2 (by omega)

theorem setVolumesDefault_length :
    ∀ (n : Nat) (vol : List Int),
      (setVolumesDefault n vol).length = vol.length := by
  intro n
  induction n with
  | zero => intro vol; rfl
  | succ m ih => intro vol; simp [setVolumesDefault, ih]

theorem setVolumesDefault_getD :
    ∀ (n : Nat) (vol : List Int) (i : Nat), i < n → i < vol.length →
      (setVolumesDefault n vol).getD i 0 = SCE_AUDIO_OUT_VOLUME_0DB := by
  intro n
  induction n with
  | zero => intro vol i hi _; omega
  | succ m ih =>
    intro vol i hin hilen
    by_cases hieq : i = m
    · subst hieq
      have hlen : i < (setVolumesDefault i vol).length := by
        rw [setVolumesDefault_length]; exact hilen
      exact getD_set_self 0 SCE_AUDIO_OUT_VOLUME_0DB _ i hlen
    · have := getD_set_ne (0 : Int) SCE_AUDIO_OUT_VOLUME_0DB
        (setVolumesDefault m vol) m i (by omega)
      rw [setVolumesDefault, this]
      exact ih vol i (by omega) hilen

theorem openScan_found (t : Int) (s fr : Nat) (fmt : OrbisAudioOutParamFormat) :
    ∀ (ports : List Port) (id : Nat),
      (openScan t s fr fmt true ports).1 = some id →
      id < ports.length ∧
      ((openScan t s fr fmt true ports).2.getD id defaultPort)
        = openSlot t s fr fmt true (ports.getD id defaultPort) := by
  intro ports
  induction ports with
  | nil => intro id hid; simp [openScan] at hid
  | cons p rest ih =>
    intro id hid
    cases hp : p.isOpen with
    | true =>
      rw [openScan, if_pos hp] at hid
      simp only at hid
      cases hr : (openScan t s fr fmt true rest).1 with
      | none => rw [hr] at hid; simp at hid
      | some j =>
        rw [hr] at hid
        simp at hid
        obtain ⟨hlt, heq⟩ := ih j hr
        constructor
        · simp; omega
        · rw [openScan, if_pos hp]
          simp only
          rw [← hid]
          simpa using heq
    | false =>
      rw [openScan, if_neg (by simp [hp]), if_pos rfl] at hid
      simp only at hid
      simp at hid
      subst hid
      refine ⟨by simp, ?_⟩
      rw [openScan, if_neg (by simp [hp]), if_pos rfl]
      rfl

theorem resolveFormat_channels_le (fmt : OrbisAudioOutParamFormat) :
    (resolveFormat fmt).2.1 ≤ 8 := by
  cases fmt <;> decide

/-- C9: immediately after a successful `AudioOutOpen` (the returned handle
is not the failure sentinel), every channel `i < channels_num` of the newly
opened port has its volume equal to `SCE_AUDIO_OUT_VOLUME_0DB`, the
unity-gain constant. -/
theorem open_default_volume (ports : List Port) (t : Int) (s fr : Nat)
    (fmt : OrbisAudioOutParamFormat)
    (hwf : ∀ p ∈ ports, p.volume.length = 8)
    (hok : (AudioOutOpen ports t s fr fmt true).1 ≠ -1) :
    1 ≤ (AudioOutOpen ports t s fr fmt true).1 ∧
    ∀ i < (resolveFormat fmt).2.1,
      ((AudioOutOpen ports t s fr fmt true).2.getD
          ((AudioOutOpen ports t s fr fmt true).1 - 1).toNat
          defaultPort).volume.getD i 0
        = SCE_AUDIO_OUT_VOLUME_0DB := by
  cases hscan : (openScan t s fr fmt true ports).1 with
  | none =>
    exfalso
    exact hok (by simp [AudioOutOpen, hscan])
  | some id =>
    obtain ⟨hlt, heq⟩ := openScan_found t s fr fmt ports id hscan
    have hh : (AudioOutOpen ports t s fr fmt true).1 = (id : Int) + 1 := by
      simp [AudioOutOpen, hscan]
    have h2 : (AudioOutOpen ports t s fr fmt true).2
        = (openScan t s fr fmt true ports).2 := rfl
    refine ⟨by rw [hh]; omega, ?_⟩
    intro i hi
    have hidx : (((id : Int) + 1) - 1).toNat = id := by omega
    rw [hh, h2, hidx, heq]
    have hmem : ports.getD id defaultPort ∈ ports := by
      rw [List.getD_eq_getElem ports defaultPort hlt]
      exact List.getElem_mem hlt
    have hlen : (ports.getD id defaultPort).volume.length = 8 := hwf _ hmem
    have hch : (resolveFormat fmt).2.1 ≤ 8 := resolveFormat_channels_le fmt
    show (setVolumesDefault (resolveFormat fmt).2.1
        (ports.getD id defaultPort).volume).getD i 0 = _
    exact setVolumesDefault_getD _ _ i hi (by omega)

theorem open_default_volume_witness :
    1 ≤ (AudioOutOpen [defaultPort] 7 256 48000 .FLOAT_STEREO true).1 ∧
    ∀ i < (resolveFormat .FLOAT_STEREO).2.1,
      ((AudioOutOpen [defaultPort] 7 256 48000 .FLOAT_STEREO true).2.getD
          ((AudioOutOpen [defaultPort] 7 256 48000 .FLOAT_STEREO true).1 - 1).toNat
          defaultPort).volume.getD i 0
        = SCE_AUDIO_OUT_VOLUME_0DB :=
  open_default_volume [defaultPort] 7 256 48000 .FLOAT_STEREO
    (by intro p hp; simp at hp; subst hp; rfl) (by decide)

/-- C3: volume remap.  On an open 8-channel port whose format is one of the
two standard variants, `SetVolume` with bitmask `0b11110000 = 240` and
volumes `[_,_,_,_,A,B,C,D]` sets channels 4..7 to `C,D,A,B` (indices
4,5,6,7 read sources 6,7,4,5) and leaves channels 0..3 unchanged; on an
8-channel port of a non-standard format the same call sets channels 4..7
to `A,B,C,D` directly. -/
theorem setVolume_remap :
    (∀ (ports : List Port) (h : Int)
        (w0 w1 w2 w3 w4 w5 w6 w7 x0 x1 x2 x3 A B C D : Int),
      1 ≤ h → h ≤ (ports.length : Int) →
      (ports.getD (h - 1).toNat defaultPort).isOpen = true →
      (ports.getD (h - 1).toNat defaultPort).channels_num = 8 →
      ((ports.getD (h - 1).toNat defaultPort).format = .S16_8CH_STD ∨
        (ports.getD (h - 1).toNat defaultPort).format = .FLOAT_8CH_STD) →
      (ports.getD (h - 1).toNat defaultPort).volume
        = [w0, w1, w2, w3, w4, w5, w6, w7] →
      (AudioOutSetVolume ports h 240 [x0, x1, x2, x3, A, B, C, D]).1 = true ∧
      ((AudioOutSetVolume ports h 240 [x0, x1, x2, x3, A, B, C, D]).2.getD
          (h - 1).toNat defaultPort).volume
        = [w0, w1, w2, w3, C, D, A, B]) ∧
    (∀ (ports : List Port) (h : Int)
        (w0 w1 w2 w3 w4 w5 w6 w7 x0 x1 x2 x3 A B C D : Int),
      1 ≤ h → h ≤ (ports.length : Int) →
      (ports.getD (h - 1).toNat defaultPort).isOpen = true →
      (ports.getD (h - 1).toNat defaultPort).channels_num = 8 →
      ((ports.getD (h - 1).toNat defaultPort).format = .S16_8CH ∨
        (ports.getD (h - 1).toNat defaultPort).format = .FLOAT_8CH) →
      (ports.getD (h - 1).toNat defaultPort).volume
        = [w0, w1, w2, w3, w4, w5, w6, w7] →
      (AudioOutSetVolume ports h 240 [x0, x1, x2, x3, A, B, C, D]).1 = true ∧
      ((AudioOutSetVolume ports h 240 [x0, x1, x2, x3, A, B, C, D]).2.getD
          (h - 1).toNat defaultPort).volume
        = [w0, w1, w2, w3, A, B, C, D]) := by
  constructor
  · intro ports h w0 w1 w2 w3 w4 w5 w6 w7 x0 x1 x2 x3 A B C D
      h1 h2 hopen hch hfmt hvol
    have hopen2 := hopen; simp at hopen2
    have hch2 := hch; simp at hch2
    have hvol2 := hvol; simp at hvol2
    have hidx : h.toNat - 1 < ports.length := by omega
    refine ⟨by simp [AudioOutSetVolume, isValidHandle, h1, h2, hopen2], ?_⟩
    simp [AudioOutSetVolume, isValidHandle, h1, h2, hopen2]
    rw [List.getElem?_set_eq_of_lt _ hidx, Option.getD_some]
    simp only [hch2, hvol2]
    rcases hfmt with hf | hf <;> (have hf2 := hf; simp at hf2; rw [hf2]) <;> rfl
  · intro ports h w0 w1 w2 w3 w4 w5 w6 w7 x0 x1 x2 x3 A B C D
      h1 h2 hopen hch hfmt hvol
    have hopen2 := hopen; simp at hopen2
    have hch2 := hch; simp at hch2
    have hvol2 := hvol; simp at hvol2
    have hidx : h.toNat - 1 < ports.length := by omega
    refine ⟨by simp [AudioOutSetVolume, isValidHandle, h1, h2, hopen2], ?_⟩
    simp [AudioOutSetVolume, isValidHandle, h1, h2, hopen2]
    rw [List.getElem?_set_eq_of_lt _ hidx, Option.getD_some]
    simp only [hch2, hvol2]
    rcases hfmt with hf | hf <;> (have hf2 := hf; simp at hf2; rw [hf2]) <;> rfl

theorem setVolume_remap_witness :
    ((AudioOutSetVolume [samplePortStd] 1 240 [0, 0, 0, 0, 10, 20, 30, 40]).1
        = true ∧
      ((AudioOutSetVolume [samplePortStd] 1 240
          [0, 0, 0, 0, 10, 20, 30, 40]).2.getD 0 defaultPort).volume
        = [32768, 32768, 32768, 32768, 30, 40, 10, 20]) ∧
    ((AudioOutSetVolume [samplePort8] 1 240 [0, 0, 0, 0, 10, 20, 30, 40]).1
        = true ∧
      ((AudioOutSetVolume [samplePort8] 1 240
          [0, 0, 0, 0, 10, 20, 30, 40]).2.getD 0 defaultPort).volume
        = [32768, 32768, 32768, 32768, 10, 20, 30, 40]) :=
  ⟨setVolume_remap.1 [samplePortStd] 1 32768 32768 32768 32768 32768 32768 32768
      32768 0 0 0 0 10 20 30 40 (by decide) (by decide) (by decide) (by decide)
      (by decide) (by decide),
    setVolume_remap.2 [samplePort8] 1 32768 32768 32768 32768 32768 32768 32768
      32768 0 0 0 0 10 20 30 40 (by decide) (by decide) (by decide) (by decide)
      (by decide) (by decide)⟩

/-- C1 (amended): `SetVolume`, and `Output` with non-null data (backend
accepting and drained), succeed iff `1 <= h <= capacity` AND slot `h-1` is
open; `GetStatus` succeeds iff `1 <= h <= capacity` only — it performs no
open check and fills its outputs even for a free slot; handle `0` and
handle `capacity+1` always fail for all three operations. -/
theorem handle_validation_amended :
    (∀ (ports : List Port) (h : Int) (bf : Nat) (vols : List Int),
      (AudioOutSetVolume ports h bf vols).1 = true ↔
        (1 ≤ h ∧ h ≤ (ports.length : Int) ∧
          (ports.getD (h - 1).toNat defaultPort).isOpen = true)) ∧
    (∀ (ports : List Port) (h : Int),
      (AudioOutGetStatus ports h).1 = true ↔
        (1 ≤ h ∧ h ≤ (ports.length : Int))) ∧
    (∀ (ports : List Port) (h : Int),
      (AudioOutOutput ports h false true [0]).1 = some ORBIS_OK ↔
        (1 ≤ h ∧ h ≤ (ports.length : Int) ∧
          (ports.getD (h - 1).toNat defaultPort).isOpen = true)) ∧
    (∀ (ports : List Port) (bf : Nat) (vols : List Int) (pr : Bool)
        (tr : List Int),
      (AudioOutSetVolume ports 0 bf vols).1 = false ∧
      (AudioOutGetStatus ports 0).1 = false ∧
      (AudioOutOutput ports 0 false pr tr).1
        = some ORBIS_AUDIO_OUT_ERROR_INVALID_PORT ∧
      (AudioOutSetVolume ports ((ports.length : Int) + 1) bf vols).1 = false ∧
      (AudioOutGetStatus ports ((ports.length : Int) + 1)).1 = false ∧
      (AudioOutOutput ports ((ports.length : Int) + 1) false pr tr).1
        = some ORBIS_AUDIO_OUT_ERROR_INVALID_PORT) := by
  refine ⟨?_, ?_, ?_, ?_⟩
  · intro ports h bf vols
    by_cases hv : 1 ≤ h ∧ h ≤ (ports.length : Int)
    · obtain ⟨h1, h2⟩ := hv
      cases ho : (ports.getD (h - 1).toNat defaultPort).isOpen with
      | false =>
        have ho2 := ho; simp at ho2
        constructor
        · intro hs
          exfalso
          simp [AudioOutSetVolume, isValidHandle, h1, h2, ho2] at hs
        · rintro ⟨_, _, hc⟩
          exact absurd hc (by simp)
      | true =>
        have ho2 := ho; simp at ho2
        constructor
        · intro _; exact ⟨h1, h2, rfl⟩
        · intro _; simp [AudioOutSetVolume, isValidHandle, h1, h2, ho2]
    · have hvf : isValidHandle ports h = false := by
        rw [isValidHandle_false]; exact hv
      constructor
      · intro hs
        exfalso
        simp [AudioOutSetVolume, hvf] at hs
      · rintro ⟨h1, h2, _⟩
        exact absurd ⟨h1, h2⟩ hv
  · intro ports h
    by_cases hv : 1 ≤ h ∧ h ≤ (ports.length : Int)
    · obtain ⟨h1, h2⟩ := hv
      simp [AudioOutGetStatus, isValidHandle, h1, h2]
    · have hvf : isValidHandle ports h = false := by
        rw [isValidHandle_false]; exact hv
      constructor
      · intro hs
        exfalso
        simp [AudioOutGetStatus, hvf] at hs
      · rintro ⟨h1, h2⟩
        exact absurd ⟨h1, h2⟩ hv
  · intro ports h
    by_cases hv : 1 ≤ h ∧ h ≤ (ports.length : Int)
    · obtain ⟨h1, h2⟩ := hv
      cases ho : (ports.getD (h - 1).toNat defaultPort).isOpen with
      | false =>
        have ho2 := ho; simp at ho2
        constructor
        · intro hs
          exfalso
          simp [AudioOutOutput, isValidHandle, h1, h2, ho2,
            ORBIS_AUDIO_OUT_ERROR_INVALID_PORT, ORBIS_OK] at hs
        · rintro ⟨_, _, hc⟩
          exact absurd hc (by simp)
      | true =>
        have ho2 := ho; simp at ho2
        constructor
        · intro _; exact ⟨h1, h2, rfl⟩
        · intro _
          simp [AudioOutOutput, isValidHandle, h1, h2, ho2, pollLoop,
            AUDIO_STREAM_BUFFER_THRESHOLD]
    · have hvf : isValidHandle ports h = false := by
        rw [isValidHandle_false]; exact hv
      constructor
      · intro hs
        exfalso
        simp [AudioOutOutput, hvf, ORBIS_AUDIO_OUT_ERROR_INVALID_PORT,
          ORBIS_OK] at hs
      · rintro ⟨h1, h2, _⟩
        exact absurd ⟨h1, h2⟩ hv
  · intro ports bf vols pr tr
    have hv0 : isValidHandle ports 0 = false := by simp [isValidHandle]
    have hvN : isValidHandle ports ((ports.length : Int) + 1) = false := by
      simp [isValidHandle]
    exact ⟨by simp [AudioOutSetVolume, hv0], by simp [AudioOutGetStatus, hv0],
      by simp [AudioOutOutput, hv0], by simp [AudioOutSetVolume, hvN],
      by simp [AudioOutGetStatus, hvN], by simp [AudioOutOutput, hvN]⟩

theorem openScan_findIdx (t : Int) (s fr : Nat)
    (fmt : OrbisAudioOutParamFormat) :
    ∀ ports : List Port,
      (openScan t s fr fmt true ports).1
        = ports.findIdx? (fun p => !p.isOpen) := by
  intro ports
  induction ports with
  | nil => rfl
  | cons p rest ih =>
    cases hp : p.isOpen with
    | true => simp [openScan, hp, List.findIdx?_cons, ih]
    | false => simp [openScan, hp, List.findIdx?_cons]

theorem openScan_all_open (t : Int) (s fr : Nat)
    (fmt : OrbisAudioOutParamFormat) (bk : Bool) :
    ∀ ports : List Port, (∀ p ∈ ports, p.isOpen = true) →
      openScan t s fr fmt bk ports = (none, ports) := by
  intro ports
  induction ports with
  | nil => intro _; rfl
  | cons p rest ih =>
    intro hall
    have hp : p.isOpen = true := hall p (by simp)
    have hrest := ih (fun q hq => hall q (by simp [hq]))
    simp [openScan, hp, hrest]

theorem openScan_skip (t : Int) (s fr : Nat)
    (fmt : OrbisAudioOutParamFormat) :
    ∀ (j : Nat) (l : List Port),
      openScan t s fr fmt true
          (List.replicate j (openSlot t s fr fmt true defaultPort)
            ++ defaultPort :: l)
        = (some j,
            List.replicate (j + 1) (openSlot t s fr fmt true defaultPort)
              ++ l) := by
  intro j
  induction j with
  | zero =>
    intro l
    have hfree : defaultPort.isOpen = false := rfl
    simp [openScan, hfree, List.replicate_succ]
  | succ j ih =>
    intro l
    have hopen : (openSlot t s fr fmt true defaultPort).isOpen = true := rfl
    simp [List.replicate_succ, openScan, hopen, ih l]

theorem open_step (t : Int) (s fr : Nat) (fmt : OrbisAudioOutParamFormat)
    (j m : Nat) :
    AudioOutOpen
        (List.replicate j (openSlot t s fr fmt true defaultPort)
          ++ List.replicate (m + 1) defaultPort) t s fr fmt true
      = ((j : Int) + 1,
          List.replicate (j + 1) (openSlot t s fr fmt true defaultPort)
            ++ List.replicate m defaultPort) := by
  have hrep : List.replicate (m + 1) defaultPort
      = defaultPort :: List.replicate m defaultPort := rfl
  rw [hrep]
  have h := openScan_skip t s fr fmt j (List.replicate m defaultPort)
  simp [AudioOutOpen, h]

theorem openN_replicate (t : Int) (s fr : Nat)
    (fmt : OrbisAudioOutParamFormat) :
    ∀ (k j m : Nat), k ≤ m →
      openN t s fr fmt k
          (List.replicate j (openSlot t s fr fmt true defaultPort)
            ++ List.replicate m defaultPort)
        = ((List.range k).map (fun i => ((j + i : Nat) : Int) + 1),
            List.replicate (j + k) (openSlot t s fr fmt true defaultPort)
              ++ List.replicate (m - k) defaultPort) := by
  intro k
  induction k with
  | zero =>
    intro j m _
    simp [openN]
  | succ k ih =>
    intro j m hkm
    cases m with
    | zero => omega
    | succ m2 =>
      rw [openN, open_step t s fr fmt j m2]
      simp only
      rw [ih (j + 1) m2 (by omega)]
      rw [Prod.ext_iff]
      constructor
      · simp only [List.range_succ_eq_map, List.map_cons, List.map_map]
        congr 1
        apply List.map_congr_left
        intro i _
        simp only [Function.comp_apply]
        push_cast
        ring
      · simp only
        have e1 : j + 1 + k = j + (k + 1) := by omega
        have e2 : m2 - k = m2 + 1 - (k + 1) := by omega
        rw [e1, e2]

/-- C5: first-fit allocation and the capacity invariant.  (1) Whenever the
first free slot of the table is at index `i`, `AudioOutOpen` (with the
backend succeeding) returns handle `i + 1` and that slot is open
afterwards.  (2) Starting from an empty table of `capacity` slots,
`capacity` successive opens return exactly the distinct handles
`1, 2, ..., capacity` in order.  (3) On a table whose slots are all open,
`AudioOutOpen` returns the exhaustion sentinel `-1` and leaves the table
unchanged, and (4) in particular the `capacity+1`-th open after filling an
empty table does so. -/
theorem open_first_fit_capacity (t : Int) (s fr : Nat)
    (fmt : OrbisAudioOutParamFormat) :
    (∀ (ports : List Port) (i : Nat),
      ports.findIdx? (fun p => !p.isOpen) = some i →
      (AudioOutOpen ports t s fr fmt true).1 = (i : Int) + 1 ∧
      ((AudioOutOpen ports t s fr fmt true).2.getD i defaultPort).isOpen
        = true) ∧
    (∀ n : Nat,
      (openN t s fr fmt n (List.replicate n defaultPort)).1
        = List.map (fun i : Nat => (i : Int) + 1) (List.range n)) ∧
    (∀ ports : List Port, (∀ p ∈ ports, p.isOpen = true) →
      ∀ bk : Bool, AudioOutOpen ports t s fr fmt bk = (-1, ports)) ∧
    (∀ n : Nat,
      AudioOutOpen (openN t s fr fmt n (List.replicate n defaultPort)).2
          t s fr fmt true
        = (-1, (openN t s fr fmt n (List.replicate n defaultPort)).2)) := by
  refine ⟨?_, ?_, ?_, ?_⟩
  · intro ports i hi
    have hscan : (openScan t s fr fmt true ports).1 = some i := by
      rw [openScan_findIdx t s fr fmt ports]; exact hi
    obtain ⟨hlt, heq⟩ := openScan_found t s fr fmt ports i hscan
    constructor
    · simp [AudioOutOpen, hscan]
    · have h2 : (AudioOutOpen ports t s fr fmt true).2
          = (openScan t s fr fmt true ports).2 := rfl
      rw [h2, heq]
      rfl
  · intro n
    have h0 := openN_replicate t s fr fmt n 0 n (le_refl n)
    simp only [List.replicate_zero, List.nil_append, Nat.zero_add,
      Nat.sub_self, List.append_nil] at h0
    rw [h0]
  · intro ports hall bk
    have h := openScan_all_open t s fr fmt bk ports hall
    simp [AudioOutOpen, h]
  · intro n
    have h0 := openN_replicate t s fr fmt n 0 n (le_refl n)
    simp only [List.replicate_zero, List.nil_append, Nat.zero_add,
      Nat.sub_self, List.append_nil] at h0
    rw [h0]
    have hall : ∀ p ∈ List.replicate n (openSlot t s fr fmt true defaultPort),
        p.isOpen = true := by
      intro p hp
      rw [List.eq_of_mem_replicate hp]
      rfl
    have h := openScan_all_open t s fr fmt true _ hall
    simp [AudioOutOpen, h]

theorem open_first_fit_capacity_witness :
    (AudioOutOpen [samplePort, defaultPort] 9 128 44100 .S16_MONO true).1
      = 2 ∧
    ((AudioOutOpen [samplePort, defaultPort] 9 128 44100
        .S16_MONO true).2.getD 1 defaultPort).isOpen = true :=
  (open_first_fit_capacity 9 128 44100 .S16_MONO).1
    [samplePort, defaultPort] 1 (by decide)

end Audio
